import Mathlib

/-!
Shallow embedding of the field-parameter migration code of
`mongoengine_migrate` (`mongoengine_migrate/fields/base.py`) and of the
embedded-document actions (`mongoengine_migrate/actions/embedded.py`).

Documents are association lists from field names to BSON-like values; a
collection is a list of documents.  The pymongo operations the source uses
(`find`, `update_many` with `$exists` and `$nin` filters and with `$rename`
and `$set` update specs) are modelled over that representation.

Values are modelled as scalars (int, string, bool), arrays of scalars, and
arrays of scalar pairs.  The pair shape exists because mongoengine `choices`
are declared either as a flat sequence of values or as a sequence of
`(value, label)` pairs, and `change_choices` branches on exactly that shape
(`isinstance(next(iter(choices)), (list, tuple))`).  A scalar passed where
the code iterates is modelled as a TypeError (a Python string is technically
iterable but a string choice set is out of scope of the code's intent).
-/

/-- A scalar BSON-like value. -/
inductive Scalar where
  | sint (n : Int)
  | sstr (s : String)
  | sbool (b : Bool)
  deriving Repr, DecidableEq

/-- A BSON-like value stored in a document or carried in a diff. -/
inductive Val where
  | atom (a : Scalar)
  | vlist (l : List Scalar)
  | vpairs (l : List (Scalar × Scalar))
  deriving Repr, DecidableEq

/-- Python truthiness of a value, as used by the `or` in
`diff.default or self.field_schema.get('default')`. -/
def Val.truthy : Val → Bool
  | .atom (.sint n) => n != 0
  | .atom (.sstr s) => s != ""
  | .atom (.sbool b) => b
  | .vlist l => !l.isEmpty
  | .vpairs l => !l.isEmpty

/-- Python `a or b` over optional values (`none` models Python `None`). -/
def pyOr (a b : Option Val) : Option Val :=
  match a with
  | none => b
  | some v => if v.truthy then some v else b

/-- A document: association list from field name to value (keys unique in
well-formed documents; lookup takes the first hit). -/
abbrev Doc : Type := List (String × Val)

/-- Value of field `f` in document `d`, if present. -/
def getField (d : Doc) (f : String) : Option Val :=
  (d.find? (fun kv => kv.1 = f)).map (fun kv => kv.2)

/-- Whether document `d` has field `f`. -/
def hasField (d : Doc) (f : String) : Bool :=
  (getField d f).isSome

/-- Set field `f` of document `d` to `v`: replace it in place when present
(MongoDB keeps the position of an existing field), append it otherwise. -/
def setField : Doc → String → Val → Doc
  | [], f, v => [(f, v)]
  | kv :: rest, f, v =>
    if kv.1 = f then (f, v) :: rest else kv :: setField rest f v

/-- Remove field `f` from document `d` (MongoDB `$unset` half of `$rename`). -/
def removeField (d : Doc) (f : String) : Doc :=
  d.filter (fun kv => kv.1 ≠ f)

/-- A query filter, covering exactly the filters `base.py` builds:
`{field: {'$exists': b}}` and `{field: {'$nin': choices}}`. -/
inductive QFilter where
  | fexists (field : String) (b : Bool)
  | nin (field : String) (choices : List Scalar)
  deriving Repr, DecidableEq

/-- MongoDB `$in`-style membership of a stored value in a list of scalar
choices: a scalar matches by equality, an array matches when any of its
elements is among the choices. -/
def valMatchesIn (v : Val) (cs : List Scalar) : Bool :=
  match v with
  | .atom a => cs.contains a
  | .vlist l => l.any (fun a => cs.contains a)
  | .vpairs _ => false

/-- Whether a document matches a filter.  `$exists` tests field presence;
`$nin` matches documents whose field value is not among the given values,
including documents that lack the field entirely (MongoDB semantics). -/
def matchesFilter (flt : QFilter) (d : Doc) : Bool :=
  match flt with
  | .fexists f b => hasField d f = b
  | .nin f cs =>
    match getField d f with
    | none => true
    | some v => !valMatchesIn v cs

/-- An update spec, covering exactly the updates `base.py` issues:
`{'$rename': {old: new}}` and `{'$set': {field: value}}`. -/
inductive UpdateSpec where
  | rename (old new : String)
  | set (field : String) (v : Val)
  deriving Repr, DecidableEq

/-- Apply an update spec to one document.  `$rename` unsets the old field
and sets the new one to its value (no-op when the old field is absent);
`$set` sets the field. -/
def applyUpdate (u : UpdateSpec) (d : Doc) : Doc :=
  match u with
  | .rename o n =>
    match getField d o with
    | none => d
    | some v => setField (removeField d o) n v
  | .set f v => setField d f v

/-- Embedding of `Collection.update_many(filter, update)`: apply the update to every
matching document, leave the others untouched. -/
def update_many (c : List Doc) (flt : QFilter) (u : UpdateSpec) : List Doc :=
  c.map (fun d => if matchesFilter flt d then applyUpdate u d else d)

/-- A pymongo cursor as returned by `Collection.find`.  `find` is lazy: it
contacts the server only when the cursor is iterated, and
`Cursor.retrieved` ("the number of documents retrieved so far") is `0`
until a batch has actually been fetched.  The source reads `.retrieved`
from a cursor it never iterates, so that read always yields `0`. -/
structure Cursor where
  matching : List Doc
  retrieved : Nat
  deriving Repr, DecidableEq

/-- Embedding of `Collection.find(filter)`: a fresh, un-iterated cursor over the
matching documents; nothing has been retrieved yet. -/
def findCursor (c : List Doc) (flt : QFilter) : Cursor :=
  { matching := c.filter (matchesFilter flt), retrieved := 0 }

/-- Python exceptions the embedded code can raise. -/
inductive PyError where
  | migrationError (msg : String)
  | schemaError (msg : String)
  | stopIteration
  | typeError
  | valueError
  deriving Repr, DecidableEq

/-- The state a `CommonFieldType` instance owns: the live collection, the
field schema dict and the current physical field name (`self.db_field`). -/
structure FieldState where
  collection : List Doc
  field_schema : List (String × Val)
  db_field : String
  deriving Repr, DecidableEq

/-- Embedding of `dict.get` over the field schema (an explicit Python `None` value and
an absent key are indistinguishable through `get`, so both map to `none`). -/
def schemaGet (schema : List (String × Val)) (k : String) : Option Val :=
  (schema.find? (fun kv => kv.1 = k)).map (fun kv => kv.2)

/-- Modelled from the spec: `AlterDiff` (defined in
`mongoengine_migrate/actions/fields.py`, which is not part of the given
sources) is the value object `{old, new, policy, default}` carrying the
before/after values of one parameter, a conflict-resolution policy and an
optional default.  `base.py` reads exactly these four attributes. -/
structure AlterDiff where
  old : Val
  new : Val
  policy : String
  default : Option Val
  deriving Repr, DecidableEq

/-- Embedding of `CommonFieldType.schema_skel()`: the fixed recognized parameter set,
every parameter mapped to `None` (source lines 61-69). -/
def schema_skel : List (String × Option Val) :=
  ["db_field", "required", "default", "unique", "unique_with", "primary_key",
   "choices", "null", "sparse", "type_key"].map (fun f => (f, none))

/-- The recognized parameter names, i.e. the keys of `schema_skel`. -/
def schemaSkelParams : List String := schema_skel.map (fun kv => kv.1)

/-- Embedding of `CommonFieldType.change_db_field` (source lines 104-114): rename the
physical field with
`update_many({diff.old: {'$exists': True}}, {'$rename': {diff.old: diff.new}})`
and remember the new name in `self.db_field`.  The diff values are field
names; a non-string diff is a malformed filter document, modelled as a
TypeError. -/
def change_db_field (s : FieldState) (diff : AlterDiff) : FieldState × Option PyError :=
  match diff.old, diff.new with
  | .atom (.sstr o), .atom (.sstr n) =>
    ({ collection := update_many s.collection (.fexists o true) (.rename o n),
       field_schema := s.field_schema,
       db_field := n }, none)
  | _, _ => (s, some .typeError)

/-- Embedding of `CommonFieldType.change_required` (source lines 116-131): only acts when
`diff.old is False and diff.new is True`; resolves the default as
`diff.default or self.field_schema.get('default')` (Python `or`, so a falsy
diff default falls through to the schema); raises MigrationError when the
resolved default is `None`, otherwise sets the default on every document
missing the field. -/
def change_required (s : FieldState) (diff : AlterDiff) : FieldState × Option PyError :=
  if diff.old = .atom (.sbool false) ∧ diff.new = .atom (.sbool true) then
    match pyOr diff.default (schemaGet s.field_schema "default") with
    | none =>
      (s, some (.migrationError ("Cannot mark field " ++ s.db_field ++
        " as required because default value is not set")))
    | some dflt =>
      ({ s with collection := (update_many s.collection (.fexists s.db_field false) (.set s.db_field dflt)) }, none)
  else
    (s, none)

/-- Embedding of `CommonFieldType.change_unique` (source lines 133-135): TODO stub, pass. -/
def change_unique (s : FieldState) (diff : AlterDiff) : FieldState × Option PyError :=
  (s, none)

/-- Embedding of `CommonFieldType.change_unique_with` (source lines 137-139): TODO stub, pass. -/
def change_unique_with (s : FieldState) (diff : AlterDiff) : FieldState × Option PyError :=
  (s, none)

/-- Embedding of `CommonFieldType.change_primary_key` (source lines 141-148): calls
`self.change_required(diff)`; the uniqueness half is commented out. -/
def change_primary_key (s : FieldState) (diff : AlterDiff) : FieldState × Option PyError :=
  change_required s diff

/-- Embedding of `CommonFieldType.change_null` (source lines 180-181): pass. -/
def change_null (s : FieldState) (diff : AlterDiff) : FieldState × Option PyError :=
  (s, none)

/-- Embedding of `CommonFieldType.change_sparse` (source lines 183-184): pass. -/
def change_sparse (s : FieldState) (diff : AlterDiff) : FieldState × Option PyError :=
  (s, none)

/-- The body of `change_choices` after choice normalization, with `choices`
the normalized flat list of scalar choices. -/
def change_choicesCore (s : FieldState) (diff : AlterDiff) (choices : List Scalar) :
    FieldState × Option PyError :=
  if diff.policy = "error" ∧
      (findCursor s.collection (.nin s.db_field choices)).retrieved ≠ 0 then
    (s, some (.migrationError ("Cannot migrate choices for " ++ s.db_field ++
      " because documents with field values not in choices")))
  else if diff.policy = "replace" then
    match pyOr diff.default (schemaGet s.field_schema "default") with
    | some (.atom dflt) =>
      if choices.contains dflt then
        ({ s with collection := (update_many s.collection (.nin s.db_field choices) (.set s.db_field (.atom dflt))) }, none)
      else
        (s, some (.migrationError ("Cannot set new choices for " ++ s.db_field ++
          " because default value not listed in choices")))
    | _ =>
      (s, some (.migrationError ("Cannot set new choices for " ++ s.db_field ++
        " because default value not listed in choices")))
  else
    (s, none)

/-- Embedding of `CommonFieldType.change_choices` (source lines 152-178).
`choices = diff.new`; `next(iter(choices))` raises StopIteration on an empty
choice set; when the first element is a list or tuple the choices are
normalized to `[k for k, _ in choices]`.  Under policy `'error'` the code
reads `self.collection.find({field: {'$nin': choices}}).retrieved` — the
`retrieved` counter of a cursor that is never iterated, hence `0` (see
`Cursor`) — and raises MigrationError when it is nonzero.  Under policy
`'replace'` it resolves `diff.default or self.field_schema.get('default')`,
raises MigrationError when that value is not among the choices (Python
`None` is never a member), and otherwise sets the default on every document
matching the `$nin` filter. -/
def change_choices (s : FieldState) (diff : AlterDiff) : FieldState × Option PyError :=
  match diff.new with
  | .atom _ => (s, some .typeError)
  | .vlist [] => (s, some .stopIteration)
  | .vpairs [] => (s, some .stopIteration)
  | .vlist cs => change_choicesCore s diff cs
  | .vpairs ps => change_choicesCore s diff (ps.map (fun kv => kv.1))

/-- A mongoengine field class, as far as `change_type_key` can observe one:
the distinguished `mongoengine.fields.BaseField` base class, or a concrete
class identified by its `__name__`. -/
inductive FieldCls where
  | baseField
  | cls (name : String)
  deriving Repr, DecidableEq

/-- Name (`__name__`) of a field class. -/
def FieldCls.clsName : FieldCls → String
  | .baseField => "BaseField"
  | .cls n => n

/-- The ambient environment `change_type_key` resolves class names against:
the attributes of the `mongoengine.fields` module, the live
`_document_registry` (for each registered model class, the classes of its
declared field instances in iteration order), and the process-wide
`mongoengine_fields_mapping` from mongoengine class name to `FieldType`
handler, where a handler is represented by its `mongoengine_field_classes`
attribute (`none` models the base `CommonFieldType`, whose attribute is
`None`). -/
structure TypeEnv where
  fieldsModule : List (String × FieldCls)
  documentRegistry : List (List FieldCls)
  fieldsMapping : List (String × Option (List FieldCls))
  deriving Repr, DecidableEq

/-- Embedding of `mongoengine_fields_mapping.get(name, CommonFieldType)` followed by
reading `mongoengine_field_classes`: a missing mapping entry yields the
base handler, whose class list is `None`. -/
def handlerClasses (env : TypeEnv) (name : String) : Option (List FieldCls) :=
  match (env.fieldsMapping.find? (fun kv => kv.1 = name)).map (fun kv => kv.2) with
  | some cs => cs
  | none => none

/-- The `_document_registry` scan of `find_field_class` (source lines
210-215): first registered model class, first field instance whose class
name matches, returning that class. -/
def firstRegistryHit (reg : List (List FieldCls)) (class_name : String) : Option FieldCls :=
  match reg with
  | [] => none
  | fields :: rest =>
    match fields.find? (fun c => c.clsName = class_name) with
    | some c => some c
    | none => firstRegistryHit rest class_name

/-- Embedding of `find_field_class(class_name, field_type)` (source lines 192-218):
search the handler's `mongoengine_field_classes` (last match wins,
`me_field_cls[-1]`), then `getattr(mongoengine.fields, class_name, None)`,
then the document registry; fall back to `BaseField`. -/
def find_field_class (env : TypeEnv) (class_name : String)
    (ftClasses : Option (List FieldCls)) : FieldCls :=
  let fromHandler : Option FieldCls :=
    match ftClasses with
    | some l => (l.filter (fun c => c.clsName = class_name)).getLast?
    | none => none
  match fromHandler with
  | some c => c
  | none =>
    match (env.fieldsModule.find? (fun kv => kv.1 = class_name)).map (fun kv => kv.2) with
    | some k => k
    | none =>
      match firstRegistryHit env.documentRegistry class_name with
      | some c => c
      | none => FieldCls.baseField

/-- Embedding of `CommonFieldType.change_type_key` (source lines 186-228): resolve the
old and new class names through `find_field_class` with each name's mapped
handler; raise MigrationError when the new name resolved to the `BaseField`
fallback; otherwise call `new_fieldtype.convert_from(old_field_cls,
new_field_cls)`.  In the given sources the only handler is
`CommonFieldType`, and that call is made on the class with only two
positional arguments for a three-parameter instance method, so it raises a
TypeError before any body runs (with an instance it would raise
`NotImplementedError`); either way it is not a MigrationError.  The method
never touches the collection.  Non-string diff values cannot name a class
and are modelled as a TypeError. -/
def change_type_key (env : TypeEnv) (s : FieldState) (diff : AlterDiff) :
    FieldState × Option PyError :=
  match diff.old, diff.new with
  | .atom (.sstr oldName), .atom (.sstr newName) =>
    let old_field_cls := find_field_class env oldName (handlerClasses env oldName)
    let new_field_cls := find_field_class env newName (handlerClasses env newName)
    if new_field_cls = FieldCls.baseField then
      (s, some (.migrationError ("Cannot migrate field type because cannot find " ++
        newName ++ " class")))
    else
      (s, some .typeError)
  | _, _ => (s, some .typeError)

/-- Embedding of `CommonFieldType.change_param(name, diff)` (source lines 86-100):
`method_name = 'change_' + name`; when `hasattr(self, method_name)` the
method is called with `diff`.  One name outside the recognized parameter
set does resolve: `name = 'param'` makes `method_name = 'change_param'`,
the dispatcher itself, which is then called with a single argument although
it takes two, raising a TypeError.  Every other unrecognized name has no
`change_` attribute and falls through to an implicit `return None`. -/
def change_param (env : TypeEnv) (s : FieldState) (name : String) (diff : AlterDiff) :
    FieldState × Option PyError :=
  if name = "db_field" then change_db_field s diff
  else if name = "required" then change_required s diff
  else if name = "unique" then change_unique s diff
  else if name = "unique_with" then change_unique_with s diff
  else if name = "primary_key" then change_primary_key s diff
  else if name = "choices" then change_choices s diff
  else if name = "null" then change_null s diff
  else if name = "sparse" then change_sparse s diff
  else if name = "type_key" then change_type_key env s diff
  else if name = "param" then (s, some .typeError)
  else (s, none)

/-- Python `str.startswith`, over character lists.  (`String.startsWith`
itself is definitionally opaque to kernel evaluation, so the test is
modelled on `toList`, which agrees with it.) -/
def strStartsWith (s pre : String) : Bool :=
  List.isPrefixOf pre.toList s.toList

/-- Priority of `CreateEmbedded` (`actions/embedded.py` line 13). -/
def CreateEmbedded.priority : Nat := 4

/-- Priority of `DropEmbedded` (`actions/embedded.py` line 37). -/
def DropEmbedded.priority : Nat := 18

/-- Priority of `RenameEmbedded` (`actions/embedded.py` line 59). -/
def RenameEmbedded.priority : Nat := 2

/-- Embedding of `CreateEmbedded.build_object` (`actions/embedded.py` lines 15-21):
return `None` unless the document-type name starts with the embedded name
marker, else defer to `BaseCreateDocument.build_object`.  The marker
constant (`flags.EMBEDDED_DOCUMENT_NAME_PREFIX`) and the base class are not
part of the given sources, so both are parameters: `pfx` is the marker and
`superBuild` the inherited builder, over arbitrary schema and action
types. -/
def CreateEmbedded.build_object {σ α : Type} (pfx : String)
    (superBuild : String → σ → σ → Option α)
    (document_type : String) (left_schema right_schema : σ) : Option α :=
  if !(strStartsWith document_type pfx) then
    none
  else
    superBuild document_type left_schema right_schema

/-- Embedding of `DropEmbedded.build_object` (`actions/embedded.py` lines 39-45): same
guard, deferring to `BaseDropDocument.build_object`. -/
def DropEmbedded.build_object {σ α : Type} (pfx : String)
    (superBuild : String → σ → σ → Option α)
    (document_type : String) (left_schema right_schema : σ) : Option α :=
  if !(strStartsWith document_type pfx) then
    none
  else
    superBuild document_type left_schema right_schema

/-- Embedding of `RenameEmbedded.build_object` (`actions/embedded.py` lines 61-67): same
guard, deferring to `BaseRenameDocument.build_object`. -/
def RenameEmbedded.build_object {σ α : Type} (pfx : String)
    (superBuild : String → σ → σ → Option α)
    (document_type : String) (left_schema right_schema : σ) : Option α :=
  if !(strStartsWith document_type pfx) then
    none
  else
    superBuild document_type left_schema right_schema

/-- The three embedded-document action kinds, tagged for scheduling. -/
inductive EmbeddedActionKind where
  | renameE
  | createE
  | dropE
  deriving Repr, DecidableEq

/-- The declared priority of each embedded action kind. -/
def kindPriority : EmbeddedActionKind → Nat
  | .renameE => RenameEmbedded.priority
  | .createE => CreateEmbedded.priority
  | .dropE => DropEmbedded.priority

/-- Lower-priority-executes-first comparison between embedded action kinds. -/
def priLE (a b : EmbeddedActionKind) : Prop := kindPriority a ≤ kindPriority b

instance : DecidableRel priLE := fun a b => Nat.decLe (kindPriority a) (kindPriority b)

instance : IsTotal EmbeddedActionKind priLE :=
  ⟨fun a b => Nat.le_total (kindPriority a) (kindPriority b)⟩

instance : IsTrans EmbeddedActionKind priLE :=
  ⟨fun _ _ _ hab hbc => Nat.le_trans hab hbc⟩

/-- Modelled from the spec: the priority scheduler (not among the given
sources) orders the detected actions by a stable sort on `(priority,
detection_order)`, lower priority executing first.  Insertion sort with the
non-strict priority comparison is such a stable sort. -/
def scheduleEmbedded (l : List EmbeddedActionKind) : List EmbeddedActionKind :=
  List.insertionSort priLE l


/-- The `i`-th document of a collection (empty document out of range). -/
def nthDoc (c : List Doc) (i : Nat) : Doc := c.getD i []

/-! ## Concrete sample inputs used to exercise the theorems -/

/-- A collection of three documents all holding value `1` in field `f`,
none of which is in the choice set `[2, 3]`. -/
def threeBadState : FieldState :=
  { collection := [[("f", Val.atom (Scalar.sint 1))], [("f", Val.atom (Scalar.sint 1))],
      [("f", Val.atom (Scalar.sint 1))]],
    field_schema := [],
    db_field := "f" }

/-- A `choices` diff to `[2, 3]` under the strict (`'error'`) policy. -/
def strictChoicesDiff : AlterDiff :=
  { old := Val.vlist [], new := Val.vlist [Scalar.sint 2, Scalar.sint 3],
    policy := "error", default := none }

/-- A required `False -> True` diff carrying no default. -/
def requiredDiff : AlterDiff :=
  { old := Val.atom (Scalar.sbool false), new := Val.atom (Scalar.sbool true),
    policy := "error", default := none }

/-- One document with field `f` and one without it; the schema declares
default `9`. -/
def mixedState : FieldState :=
  { collection := [[("f", Val.atom (Scalar.sint 5))], [("g", Val.atom (Scalar.sint 7))]],
    field_schema := [("default", Val.atom (Scalar.sint 9))],
    db_field := "f" }

/-- Like `mixedState` but with no schema default anywhere. -/
def noDefaultState : FieldState :=
  { collection := [[("f", Val.atom (Scalar.sint 5))], [("g", Val.atom (Scalar.sint 7))]],
    field_schema := [],
    db_field := "f" }

/-- A `db_field` rename diff from `f` to `h`. -/
def renameDiff : AlterDiff :=
  { old := Val.atom (Scalar.sstr "f"), new := Val.atom (Scalar.sstr "h"),
    policy := "error", default := none }

/-- A `choices` diff whose new choice set is empty. -/
def emptyChoicesDiff : AlterDiff :=
  { old := Val.vlist [Scalar.sint 2], new := Val.vlist [],
    policy := "replace", default := none }

/-- An empty resolution environment: no handler registrations, an empty
field-declaration namespace and an empty document registry. -/
def emptyTypeEnv : TypeEnv :=
  { fieldsModule := [], documentRegistry := [], fieldsMapping := [] }

/-- A `type_key` diff from `StringField` to `IntField`. -/
def typeKeyDiff : AlterDiff :=
  { old := Val.atom (Scalar.sstr "StringField"), new := Val.atom (Scalar.sstr "IntField"),
    policy := "error", default := none }

/-- First resolution source of `find_field_class`: the matching classes of
the handler's own `mongoengine_field_classes`, last declaration winning. -/
def handlerHit (env : TypeEnv) (class_name : String) : Option FieldCls :=
  match handlerClasses env class_name with
  | some l => (l.filter (fun c => c.clsName = class_name)).getLast?
  | none => none

/-- Second resolution source: `getattr(mongoengine.fields, class_name, None)`. -/
def moduleHit (env : TypeEnv) (class_name : String) : Option FieldCls :=
  (env.fieldsModule.find? (fun kv => kv.1 = class_name)).map (fun kv => kv.2)

/-- Third resolution source: the live `_document_registry` scan. -/
def registryHit (env : TypeEnv) (class_name : String) : Option FieldCls :=
  firstRegistryHit env.documentRegistry class_name

/-! ## Helper lemmas about document field operations -/

theorem getField_cons (kv : String × Val) (d : Doc) (f : String) :
    getField (kv :: d) f = if kv.1 = f then some kv.2 else getField d f := by
  by_cases h : kv.1 = f <;> simp [getField, List.find?_cons, h]

theorem removeField_cons (kv : String × Val) (d : Doc) (f : String) :
    removeField (kv :: d) f =
      if kv.1 = f then removeField d f else kv :: removeField d f := by
  by_cases h : kv.1 = f <;> simp [removeField, List.filter_cons, h]

theorem getField_setField_self (d : Doc) (f : String) (v : Val) :
    getField (setField d f v) f = some v := by
  induction d with
  | nil => simp [setField, getField_cons]
  | cons kv rest ih =>
    by_cases h : kv.1 = f
    · simp [setField, h, getField_cons]
    · simp [setField, h, getField_cons, ih]

theorem getField_setField_ne (d : Doc) (f g : String) (v : Val) (h : g ≠ f) :
    getField (setField d f v) g = getField d g := by
  induction d with
  | nil => simp [setField, getField_cons, getField, Ne.symm h]
  | cons kv rest ih =>
    by_cases hk : kv.1 = f
    · simp [setField, hk, getField_cons, Ne.symm h]
    · simp [setField, hk, getField_cons, ih]

theorem getField_removeField_self (d : Doc) (f : String) :
    getField (removeField d f) f = none := by
  induction d with
  | nil => simp [removeField, getField]
  | cons kv rest ih =>
    by_cases hk : kv.1 = f
    · simp [removeField_cons, hk, ih]
    · simp [removeField_cons, hk, getField_cons, ih]

theorem getField_removeField_ne (d : Doc) (f g : String) (h : g ≠ f) :
    getField (removeField d f) g = getField d g := by
  induction d with
  | nil => simp [removeField, getField]
  | cons kv rest ih =>
    by_cases hk : kv.1 = f
    · simp [removeField_cons, hk, getField_cons, Ne.symm h, ih]
    · simp [removeField_cons, hk, getField_cons, ih]

theorem length_update_many (c : List Doc) (flt : QFilter) (u : UpdateSpec) :
    (update_many c flt u).length = c.length := by
  simp [update_many]

theorem nthDoc_update_many (c : List Doc) (flt : QFilter) (u : UpdateSpec)
    (i : Nat) (hi : i < c.length) :
    nthDoc (update_many c flt u) i =
      (if matchesFilter flt (nthDoc c i) then applyUpdate u (nthDoc c i)
       else nthDoc c i) := by
  have hi2 : i < (update_many c flt u).length := by
    rw [length_update_many]
    exact hi
  simp only [nthDoc]
  rw [List.getD_eq_getElem _ _ hi2, List.getD_eq_getElem _ _ hi]
  simp [update_many]

/-! ## Claim theorems -/

/-- C1 (evaluation at the failing input): with three documents whose field
value `1` is outside the new choice set `[2, 3]` and the strict (`'error'`)
policy, the `$nin` filter matches all three documents, yet `change_choices`
raises nothing and mutates nothing, because the code reads `.retrieved` off
a cursor that `find` returned lazily and that was never iterated, which is
always `0`.  The claim (and the spec) say a MigrationError reporting count
3 must be raised. -/
theorem change_choices_strict_policy_dead :
    (threeBadState.collection.filter
        (matchesFilter (QFilter.nin "f" [Scalar.sint 2, Scalar.sint 3]))).length = 3 ∧
    change_choices threeBadState strictChoicesDiff = (threeBadState, none) :=
  ⟨by decide, by decide⟩

/-- C7: `change_primary_key` performs exactly the same state change and
raises exactly the same errors as `change_required` on every state and
diff: the source body is the single call `self.change_required(diff)` with
the uniqueness half commented out. -/
theorem change_primary_key_eq_change_required (s : FieldState) (diff : AlterDiff) :
    change_primary_key s diff = change_required s diff := rfl

/-- C9: an empty new choice set makes `change_choices` raise the unguarded
`StopIteration` coming from `next(iter(choices))`, before any policy branch
and before any document is inspected or mutated — whatever the policy, the
default, and the collection contents. -/
theorem change_choices_empty_stopiteration (s : FieldState) (diff : AlterDiff)
    (h : diff.new = Val.vlist [] ∨ diff.new = Val.vpairs []) :
    change_choices s diff = (s, some PyError.stopIteration) := by
  rcases h with h | h <;> simp [change_choices, h]

/-- Witness for C9 at a concrete input. -/
theorem change_choices_empty_stopiteration_witness :
    (emptyChoicesDiff.new = Val.vlist [] ∨ emptyChoicesDiff.new = Val.vpairs []) ∧
    change_choices threeBadState emptyChoicesDiff =
      (threeBadState, some PyError.stopIteration) :=
  ⟨Or.inl rfl,
    change_choices_empty_stopiteration threeBadState emptyChoicesDiff (Or.inl rfl)⟩

/-- C10: on any diff that is not exactly `old is False and new is True`
(the backward direction, or a no-change diff, or non-boolean values),
`change_required` raises no error, performs no store operation and leaves
the handler state untouched. -/
theorem change_required_noop_otherwise (s : FieldState) (diff : AlterDiff)
    (h : ¬(diff.old = Val.atom (Scalar.sbool false) ∧
           diff.new = Val.atom (Scalar.sbool true))) :
    change_required s diff = (s, none) := by
  simp [change_required, h]

/-- Witness for C10 at a concrete input (the backward direction
`True -> False`). -/
theorem change_required_noop_otherwise_witness :
    change_required mixedState
        { old := Val.atom (Scalar.sbool true), new := Val.atom (Scalar.sbool false),
          policy := "error", default := none } =
      (mixedState, none) :=
  change_required_noop_otherwise mixedState
    { old := Val.atom (Scalar.sbool true), new := Val.atom (Scalar.sbool false),
      policy := "error", default := none }
    (by decide)

/-- C5: `build_object` of each embedded-family action returns `None` for
every document-type name that does not start with the embedded name marker,
whatever the marker, the inherited builders and the two schema snapshots. -/
theorem embedded_build_object_none {σ α : Type} (pfx : String)
    (superC superD superR : String → σ → σ → Option α)
    (document_type : String) (left_schema right_schema : σ)
    (h : strStartsWith document_type pfx = false) :
    CreateEmbedded.build_object pfx superC document_type left_schema right_schema = none ∧
    DropEmbedded.build_object pfx superD document_type left_schema right_schema = none ∧
    RenameEmbedded.build_object pfx superR document_type left_schema right_schema = none := by
  refine ⟨?_, ?_, ?_⟩ <;>
    simp [CreateEmbedded.build_object, DropEmbedded.build_object,
      RenameEmbedded.build_object, h]

/-- Witness for C5 at a concrete input: marker `~`, a name without it, and
inherited builders that would return an action. -/
theorem embedded_build_object_none_witness :
    (strStartsWith "Doc1" "~" = false) ∧
    CreateEmbedded.build_object "~" (fun _ _ _ => some 1) "Doc1" (0 : Nat) 0 = none ∧
    DropEmbedded.build_object "~" (fun _ _ _ => some 2) "Doc1" (0 : Nat) 0 = none ∧
    RenameEmbedded.build_object "~" (fun _ _ _ => some 3) "Doc1" (0 : Nat) 0 = none := by
  have h : strStartsWith "Doc1" "~" = false := by decide
  have h2 := embedded_build_object_none "~" (fun _ _ _ => some 1) (fun _ _ _ => some 2)
    (fun _ _ _ => some 3) "Doc1" (0 : Nat) 0 h
  exact ⟨h, h2.1, h2.2.1, h2.2.2⟩

/-- C6 (counterexample): the claim fails at the parameter name `param`,
which is outside the recognized parameter set yet is not a no-op:
`method_name` becomes `change_param`, which `hasattr` finds (it is the
dispatcher itself), and the dispatcher is then called with one positional
argument although it requires two, raising a TypeError. -/
theorem change_param_param_not_noop :
    ("param" ∈ schemaSkelParams → False) ∧
    change_param emptyTypeEnv mixedState "param" requiredDiff =
      (mixedState, some PyError.typeError) :=
  ⟨by decide, by decide⟩

/-- C6 (amended): for every parameter name outside the recognized parameter
set other than `param`, `change_param(name, diff)` is a no-op: no error, no
collection or handler-state mutation, and an implicit `return None`. -/
theorem change_param_unrecognized_noop (env : TypeEnv) (s : FieldState)
    (name : String) (diff : AlterDiff)
    (hmem : ¬ name ∈ schemaSkelParams) (hp : name ≠ "param") :
    change_param env s name diff = (s, none) := by
  have hparams : schemaSkelParams =
      ["db_field", "required", "default", "unique", "unique_with", "primary_key",
       "choices", "null", "sparse", "type_key"] := rfl
  rw [hparams] at hmem
  simp only [List.mem_cons, List.not_mem_nil, or_false] at hmem
  push_neg at hmem
  obtain ⟨h1, h2, h3, h4, h5, h6, h7, h8, h9, h10⟩ := hmem
  simp [change_param, h1, h2, h4, h5, h6, h7, h8, h9, h10, hp]

/-- Witness for the amended C6 at a concrete unrecognized name. -/
theorem change_param_unrecognized_noop_witness :
    (¬ "max_length" ∈ schemaSkelParams) ∧
    change_param emptyTypeEnv mixedState "max_length" requiredDiff =
      (mixedState, none) :=
  ⟨by decide,
    change_param_unrecognized_noop emptyTypeEnv mixedState "max_length" requiredDiff
      (by decide) (by decide)⟩

/-- C2: for a `required` diff `False -> True`, when the resolved default —
`diff.default or field_schema.get('default')` — is `None`, a MigrationError
is raised and the collection is left unmodified (so in particular the count
of documents missing the field is unchanged); when it resolves to a value,
exactly the documents missing the field receive that value and every
document that has the field stays untouched. -/
theorem change_required_false_to_true (s : FieldState) (diff : AlterDiff)
    (hold : diff.old = Val.atom (Scalar.sbool false))
    (hnew : diff.new = Val.atom (Scalar.sbool true)) :
    (pyOr diff.default (schemaGet s.field_schema "default") = none →
      (change_required s diff).1 = s ∧
      ∃ m, (change_required s diff).2 = some (PyError.migrationError m)) ∧
    (∀ v, pyOr diff.default (schemaGet s.field_schema "default") = some v →
      (change_required s diff).2 = none ∧
      (change_required s diff).1.field_schema = s.field_schema ∧
      (change_required s diff).1.db_field = s.db_field ∧
      (change_required s diff).1.collection.length = s.collection.length ∧
      ∀ i, i < s.collection.length →
        (hasField (nthDoc s.collection i) s.db_field = true →
          nthDoc (change_required s diff).1.collection i = nthDoc s.collection i) ∧
        (hasField (nthDoc s.collection i) s.db_field = false →
          getField (nthDoc (change_required s diff).1.collection i) s.db_field = some v ∧
          ∀ g, g ≠ s.db_field →
            getField (nthDoc (change_required s diff).1.collection i) g =
              getField (nthDoc s.collection i) g)) := by
  constructor
  · intro hnone
    simp [change_required, hold, hnew, hnone]
  · intro v hv
    simp only [change_required, hold, hnew, hv, and_self, if_true, true_and]
    refine ⟨by rw [length_update_many], ?_⟩
    intro i hi
    constructor
    · intro hhas
      rw [nthDoc_update_many _ _ _ i hi]
      simp [matchesFilter, hhas]
    · intro hhas
      rw [nthDoc_update_many _ _ _ i hi]
      simp [matchesFilter, hhas, applyUpdate]
      exact ⟨getField_setField_self _ _ _, fun g hg => getField_setField_ne _ _ _ _ hg⟩

/-- Witness for C2 at concrete inputs: with no default anywhere the
migration fails and the collection is untouched; with a schema default of
`9`, the document missing `f` receives `9` and the document that has `f`
is unchanged. -/
theorem change_required_false_to_true_witness :
    ((change_required noDefaultState requiredDiff).1 = noDefaultState ∧
      ∃ m, (change_required noDefaultState requiredDiff).2 =
        some (PyError.migrationError m)) ∧
    ((change_required mixedState requiredDiff).2 = none ∧
      getField (nthDoc (change_required mixedState requiredDiff).1.collection 1) "f" =
        some (Val.atom (Scalar.sint 9)) ∧
      nthDoc (change_required mixedState requiredDiff).1.collection 0 =
        nthDoc mixedState.collection 0) := by
  have herr := (change_required_false_to_true noDefaultState requiredDiff rfl rfl).1
    (by decide)
  have hok := (change_required_false_to_true mixedState requiredDiff rfl rfl).2
    (Val.atom (Scalar.sint 9)) (by decide)
  refine ⟨herr, hok.1, ?_, ?_⟩
  · exact ((hok.2.2.2.2 1 (by decide)).2 (by decide)).1
  · exact (hok.2.2.2.2 0 (by decide)).1 (by decide)

/-- C3: `change_db_field` renames the physical field from the diff's old
name to its new name in exactly the documents that currently have the old
field — the renamed field carries the old value, the old name is gone (when
the two names differ) and every other field is untouched — while documents
without the old field are left completely unchanged.  It raises nothing and
records the new name in the handler. -/
theorem change_db_field_renames_exactly (s : FieldState) (diff : AlterDiff)
    (o n : String)
    (hold : diff.old = Val.atom (Scalar.sstr o))
    (hnew : diff.new = Val.atom (Scalar.sstr n)) :
    (change_db_field s diff).2 = none ∧
    (change_db_field s diff).1.db_field = n ∧
    (change_db_field s diff).1.field_schema = s.field_schema ∧
    (change_db_field s diff).1.collection.length = s.collection.length ∧
    ∀ i, i < s.collection.length →
      (hasField (nthDoc s.collection i) o = false →
        nthDoc (change_db_field s diff).1.collection i = nthDoc s.collection i) ∧
      (hasField (nthDoc s.collection i) o = true →
        getField (nthDoc (change_db_field s diff).1.collection i) n =
          getField (nthDoc s.collection i) o ∧
        (o ≠ n →
          hasField (nthDoc (change_db_field s diff).1.collection i) o = false) ∧
        ∀ g, g ≠ o → g ≠ n →
          getField (nthDoc (change_db_field s diff).1.collection i) g =
            getField (nthDoc s.collection i) g) := by
  simp only [change_db_field, hold, hnew]
  refine ⟨trivial, trivial, trivial, by rw [length_update_many], ?_⟩
  intro i hi
  constructor
  · intro hhas
    rw [nthDoc_update_many _ _ _ i hi]
    simp [matchesFilter, hhas]
  · intro hhas
    rw [nthDoc_update_many _ _ _ i hi]
    simp only [matchesFilter, hhas, applyUpdate]
    rcases hv : getField (nthDoc s.collection i) o with _ | v
    · simp [hasField, hv] at hhas
    · refine ⟨?_, ?_, ?_⟩
      · show getField (setField (removeField (nthDoc s.collection i) o) n v) n = some v
        exact getField_setField_self _ _ _
      · intro hon
        show hasField (setField (removeField (nthDoc s.collection i) o) n v) o = false
        simp [hasField, getField_setField_ne _ _ _ _ hon, getField_removeField_self]
      · intro g hgo hgn
        show getField (setField (removeField (nthDoc s.collection i) o) n v) g =
          getField (nthDoc s.collection i) g
        rw [getField_setField_ne _ _ _ _ hgn, getField_removeField_ne _ _ _ hgo]

/-- Witness for C3 at a concrete input: renaming `f` to `h` moves the value
of `f` in the document that has it and leaves the document without `f`
untouched. -/
theorem change_db_field_renames_exactly_witness :
    (change_db_field mixedState renameDiff).2 = none ∧
    getField (nthDoc (change_db_field mixedState renameDiff).1.collection 0) "h" =
      getField (nthDoc mixedState.collection 0) "f" ∧
    hasField (nthDoc (change_db_field mixedState renameDiff).1.collection 0) "f" = false ∧
    nthDoc (change_db_field mixedState renameDiff).1.collection 1 =
      nthDoc mixedState.collection 1 := by
  have h := change_db_field_renames_exactly mixedState renameDiff "f" "h" rfl rfl
  refine ⟨h.1, ?_, ?_, ?_⟩
  · exact ((h.2.2.2.2 0 (by decide)).2 (by decide)).1
  · exact ((h.2.2.2.2 0 (by decide)).2 (by decide)).2.1 (by decide)
  · exact (h.2.2.2.2 1 (by decide)).1 (by decide)

/-- C8: the declared embedded-action priorities satisfy the ordering bands
`RenameEmbedded.priority (2) < CreateEmbedded.priority (4) <
DropEmbedded.priority (18)`, and consequently, under the lower-executes-
first stable sort of the scheduler, every rename action precedes every
create action and every create action precedes every drop action in every
scheduled run. -/
theorem embedded_priority_bands :
    RenameEmbedded.priority < CreateEmbedded.priority ∧
    CreateEmbedded.priority < DropEmbedded.priority ∧
    ∀ (l : List EmbeddedActionKind) (i j : Fin (scheduleEmbedded l).length),
      ((scheduleEmbedded l).get i = EmbeddedActionKind.renameE →
        (scheduleEmbedded l).get j = EmbeddedActionKind.createE → i < j) ∧
      ((scheduleEmbedded l).get i = EmbeddedActionKind.createE →
        (scheduleEmbedded l).get j = EmbeddedActionKind.dropE → i < j) := by
  refine ⟨by decide, by decide, ?_⟩
  intro l i j
  have hs : List.Sorted priLE (scheduleEmbedded l) :=
    List.sorted_insertionSort priLE l
  constructor
  · intro hi hj
    rcases lt_trichotomy i j with h | h | h
    · exact h
    · rw [h, hj] at hi
      exact absurd hi (by decide)
    · have hrel := hs.rel_get_of_lt h
      rw [hi, hj] at hrel
      exact absurd hrel (by decide)
  · intro hi hj
    rcases lt_trichotomy i j with h | h | h
    · exact h
    · rw [h, hj] at hi
      exact absurd hi (by decide)
    · have hrel := hs.rel_get_of_lt h
      rw [hi, hj] at hrel
      exact absurd hrel (by decide)

/-- Witness for C8 at a concrete run: a drop, a create and a rename are
detected in that order; the schedule puts the rename first, the create
second and the drop last. -/
theorem embedded_priority_bands_witness :
    (scheduleEmbedded [EmbeddedActionKind.dropE, EmbeddedActionKind.createE,
        EmbeddedActionKind.renameE]).get ⟨0, by decide⟩ = EmbeddedActionKind.renameE ∧
    (scheduleEmbedded [EmbeddedActionKind.dropE, EmbeddedActionKind.createE,
        EmbeddedActionKind.renameE]).get ⟨1, by decide⟩ = EmbeddedActionKind.createE ∧
    (scheduleEmbedded [EmbeddedActionKind.dropE, EmbeddedActionKind.createE,
        EmbeddedActionKind.renameE]).get ⟨2, by decide⟩ = EmbeddedActionKind.dropE ∧
    (⟨0, by decide⟩ : Fin (scheduleEmbedded [EmbeddedActionKind.dropE,
        EmbeddedActionKind.createE, EmbeddedActionKind.renameE]).length) < ⟨1, by decide⟩ ∧
    (⟨1, by decide⟩ : Fin (scheduleEmbedded [EmbeddedActionKind.dropE,
        EmbeddedActionKind.createE, EmbeddedActionKind.renameE]).length) < ⟨2, by decide⟩ := by
  refine ⟨by decide, by decide, by decide, ?_, ?_⟩
  · exact (embedded_priority_bands.2.2 [EmbeddedActionKind.dropE,
      EmbeddedActionKind.createE, EmbeddedActionKind.renameE]
      ⟨0, by decide⟩ ⟨1, by decide⟩).1 (by decide) (by decide)
  · exact (embedded_priority_bands.2.2 [EmbeddedActionKind.dropE,
      EmbeddedActionKind.createE, EmbeddedActionKind.renameE]
      ⟨1, by decide⟩ ⟨2, by decide⟩).2 (by decide) (by decide)

/-- Resolution chain: `find_field_class` on a name and its mapped handler equals the
first-hit chain of the three resolution sources — handler identifier set,
module namespace, document registry — with `BaseField` as final fallback. -/
theorem find_field_class_chain (env : TypeEnv) (name : String) :
    find_field_class env name (handlerClasses env name) =
      (((handlerHit env name).or (moduleHit env name)).or (registryHit env name)).getD
        FieldCls.baseField := by
  unfold find_field_class handlerHit moduleHit registryHit
  cases hc : handlerClasses env name with
  | none =>
    cases hm : (env.fieldsModule.find? (fun kv => kv.1 = name)).map (fun kv => kv.2) with
    | none =>
      cases hr : firstRegistryHit env.documentRegistry name with
      | none => simp [Option.or]
      | some c => simp [Option.or]
    | some k => simp [Option.or]
  | some l =>
    dsimp only
    rw [List.filter_getLast?]
    cases l.reverse.find? (fun c => c.clsName = name) with
    | none =>
      cases (env.fieldsModule.find? (fun kv => kv.1 = name)).map (fun kv => kv.2) with
      | none =>
        cases firstRegistryHit env.documentRegistry name with
        | none => simp [Option.or]
        | some c => simp [Option.or]
      | some k => simp [Option.or]
    | some c => simp [Option.or]

/-- C4: during `change_type_key` the new type identifier is resolved by
trying, in order, the target handler's own declared identifier set, the
`mongoengine.fields` namespace, then the live model registry — stated here
as `find_field_class` being equal to the first-hit chain of the three
sources with `BaseField` as final fallback — and a MigrationError is raised
if and only if that ordered resolution yields no concrete class (i.e. falls
back to `BaseField`); the method performs no document mutation on any path,
so in particular the error precedes any mutation. -/
theorem change_type_key_resolution (env : TypeEnv) (s : FieldState) (diff : AlterDiff)
    (oldName newName : String)
    (hold : diff.old = Val.atom (Scalar.sstr oldName))
    (hnew : diff.new = Val.atom (Scalar.sstr newName)) :
    (change_type_key env s diff).1 = s ∧
    find_field_class env newName (handlerClasses env newName) =
      (((handlerHit env newName).or (moduleHit env newName)).or
        (registryHit env newName)).getD FieldCls.baseField ∧
    ((∃ m, (change_type_key env s diff).2 = some (PyError.migrationError m)) ↔
      find_field_class env newName (handlerClasses env newName) = FieldCls.baseField) := by
  refine ⟨?_, find_field_class_chain env newName, ?_⟩
  · simp only [change_type_key, hold, hnew]
    split <;> rfl
  · constructor
    · rintro ⟨m, hm⟩
      by_contra hne
      simp [change_type_key, hold, hnew, hne] at hm
    · intro he
      exact ⟨"Cannot migrate field type because cannot find " ++ newName ++ " class",
        by simp [change_type_key, hold, hnew, he]⟩

/-- Witness for C4 at a concrete input: in an empty environment the name
`IntField` resolves to nothing, the fallback is `BaseField`, a
MigrationError is raised and the state is untouched. -/
theorem change_type_key_resolution_witness :
    (change_type_key emptyTypeEnv noDefaultState typeKeyDiff).1 = noDefaultState ∧
    (∃ m, (change_type_key emptyTypeEnv noDefaultState typeKeyDiff).2 =
      some (PyError.migrationError m)) := by
  have h := change_type_key_resolution emptyTypeEnv noDefaultState typeKeyDiff
    "StringField" "IntField" rfl rfl
  exact ⟨h.1, h.2.2.mpr (by decide)⟩
